import Mathlib

/-!
# Verification of the ratrace backend core

Shallow embedding of the ratrace backend (Twitch credential lifecycle
manager, EventSub session handling, and the race/betting domain-state
projectors) together with proofs about the properties claimed of it.

Conventions used throughout:
* JavaScript string truthiness (`!s`) is modelled by `truthy` on
  `Option String`: `none` (null/undefined) and `some ""` are falsy.
* Network calls are modelled by passing the upstream response as an
  explicit oracle argument; a function that never consults the oracle is
  one whose result does not depend on that argument.
* Wall-clock time is an explicit `now : Nat` argument (seconds since
  epoch, matching `Math.floor(Date.now() / 1000)` in the source).
-/

namespace Ratrace

/-- JavaScript truthiness of a nullable string: `null`/`undefined` and the
empty string are falsy. -/
def truthy : Option String → Bool
  | none => false
  | some s => !(s == "")

/-! ## TwitchAuthManager (src/server/src/services/TwitchAuthManager.ts)

The credential record held by the manager: `accessToken`,
`refreshToken`, `expiresAt` (seconds since epoch), each nullable. -/

structure TokenState where
  accessToken : Option String
  refreshToken : Option String
  expiresAt : Option Nat
  deriving Repr, DecidableEq

/-- `clearTokens()`: wipes the whole record. -/
def clearTokens : TokenState :=
  { accessToken := none, refreshToken := none, expiresAt := none }

/-- `isAccessTokenExpired()`: no expiry (or expiry 0, falsy in JS) counts
as expired; otherwise expired iff `currentTime >= expiresAt - 300`.
With `Nat` subtraction, `e - 300 = 0` when `e ≤ 300`, which agrees with
the JS comparison against a non-positive number since `now ≥ 0`. -/
def isAccessTokenExpired (now : Nat) (s : TokenState) : Bool :=
  match s.expiresAt with
  | none => true
  | some e => decide (now ≥ e - 300)

/-- Upstream response to a POST of a `refresh_token` (or
`authorization_code`) grant to the token endpoint: on success Twitch
returns `access_token`, optionally a new `refresh_token`, and
`expires_in` seconds; any error is `failure`. -/
inductive RefreshResponse where
  | success (accessToken : String) (refreshToken : Option String) (expiresIn : Nat)
  | failure
  deriving Repr, DecidableEq

/-- `refreshAccessToken()`: without a (truthy) refresh token it clears the
record and fails without consulting the upstream endpoint (the `resp`
oracle is not inspected on that path). On upstream success it installs
the new access token, keeps the old refresh token unless the response
carries a truthy new one, and sets `expiresAt := now + expires_in`. On
upstream failure it clears the record and fails. Returns
(refreshed?, new state). -/
def refreshAccessToken (resp : RefreshResponse) (now : Nat) (s : TokenState) :
    Bool × TokenState :=
  if !truthy s.refreshToken then
    (false, clearTokens)
  else
    match resp with
    | .success a rt ei =>
        (true,
          { accessToken := some a
            refreshToken :=
              match rt with
              | some r => if r == "" then s.refreshToken else some r
              | none => s.refreshToken
            expiresAt := some (now + ei) })
    | .failure => (false, clearTokens)

/-- Upstream response of the `/oauth2/validate` introspection endpoint:
valid (optionally reporting `expires_in`) or invalid. -/
inductive ValidateResponse where
  | valid (expiresIn : Option Nat)
  | invalid
  deriving Repr, DecidableEq

/-- `validateToken()`: false without a truthy access token; on a valid
introspection response carrying a truthy (non-zero) `expires_in`,
updates `expiresAt := now + expires_in`. Returns (valid?, new state). -/
def validateToken (resp : ValidateResponse) (now : Nat) (s : TokenState) :
    Bool × TokenState :=
  if !truthy s.accessToken then
    (false, s)
  else
    match resp with
    | .valid ei? =>
        (true,
          match ei? with
          | some ei => if ei == 0 then s else { s with expiresAt := some (now + ei) }
          | none => s)
    | .invalid => (false, s)

/-- `getValidAccessToken()`: the `validCredential` entry point. Returns
(token or null, new state). `vresp` and `rresp` are the oracle responses
used if the introspection / refresh endpoints are consulted. -/
def getValidAccessToken (vresp : ValidateResponse) (rresp : RefreshResponse)
    (now : Nat) (s : TokenState) : Option String × TokenState :=
  if !truthy s.accessToken then
    (none, s)
  else if isAccessTokenExpired now s then
    let (refreshed, s1) := refreshAccessToken rresp now s
    if !refreshed then (none, clearTokens)
    else (s1.accessToken, s1)
  else
    let (isValid, s1) := validateToken vresp now s
    if isValid then (s1.accessToken, s1)
    else
      let (refreshed, s2) := refreshAccessToken rresp now s1
      if !refreshed then (none, clearTokens)
      else (s2.accessToken, s2)

/-! ## generateRandomColor (src/services/TwitchEventSub.ts)

JavaScript 32-bit integer semantics are made explicit: `<<` and `&`
coerce their operands with ToInt32. The hash accumulator itself is a JS
Number; it stays an exact integer for any realistic username length, so
it is modelled by `Int`. A username is modelled by its UTF-16 code-unit
sequence (`charCodeAt`). -/

/-- JavaScript ToInt32: reduce mod 2^32 into [-2^31, 2^31). -/
def jsToInt32 (x : Int) : Int := (x + 2147483648) % 4294967296 - 2147483648

/-- One loop iteration: `hash = charCode + ((hash << 5) - hash)`, where
`hash << 5` is the 32-bit shift ToInt32(ToInt32(hash) * 32). -/
def hashStep (h : Int) (code : Nat) : Int := code + (jsToInt32 (h * 32) - h)

/-- The `for` loop over the username's code units, starting from 0. -/
def hashOf (codeUnits : List Nat) : Int := codeUnits.foldl hashStep 0

/-- `hash & 0x00FFFFFF`: ToInt32(hash)'s unsigned 32-bit pattern masked
to its low 24 bits. -/
def maskTo24Bits (h : Int) : Nat := (h % 4294967296).toNat &&& 16777215

/-- One digit of `Number.prototype.toString(16)` followed by
`toUpperCase()`: 0-9 then A-F. -/
def hexChar (n : Nat) : Char :=
  if n < 10 then Char.ofNat (48 + n) else Char.ofNat (55 + n)

/-- `n.toString(16).toUpperCase()` for a non-negative integer: most
significant digit first, a single "0" for zero. -/
def hexDigits (n : Nat) : List Char :=
  if _h : n < 16 then [hexChar n]
  else hexDigits (n / 16) ++ [hexChar (n % 16)]
decreasing_by
  exact Nat.div_lt_self (by omega) (by omega)

/-- `generateRandomColor(username)`: hash the code units, mask to 24
bits, render in uppercase hex, left-pad with `"00000".substring(0, 6 -
c.length)` and prefix `#`. -/
def generateRandomColor (codeUnits : List Nat) : String :=
  let hash := hashOf codeUnits
  let c := hexDigits (maskTo24Bits hash)
  String.mk ('#' :: ("00000".toList.take (6 - c.length) ++ c))

/-- UTF-16 code units of a string; for the basic multilingual plane this
is `charCodeAt` at each index. -/
def codeUnitsOf (s : String) : List Nat := s.toList.map Char.toNat

/-- A character is an uppercase hexadecimal digit: `0`-`9` or `A`-`F`. -/
def isUpperHexDigit (ch : Char) : Bool :=
  (('0' ≤ ch) && (ch ≤ '9')) || (('A' ≤ ch) && (ch ≤ 'F'))

/-! ## TwitchEventSub connection state (src/services/TwitchEventSub.ts)

The module-level mutable connection state: the WebSocket client (if
any) abstracted to its readyState, the captured session id, and whether
a reconnect timer is pending. -/

/-- WebSocket readyState; `opened` models `WebSocket.OPEN`. -/
inductive ReadyState where
  | connecting
  | opened
  | closing
  | closed
  deriving Repr, DecidableEq

structure EventSubState where
  client : Option ReadyState
  sessionId : Option String
  reconnectScheduled : Bool
  deriving Repr, DecidableEq

/-- `connectToTwitchEventSub`: if a client exists and its readyState is
OPEN or CONNECTING, return immediately (no-op on the connection state);
otherwise construct a fresh WebSocket, which starts in CONNECTING. -/
def connectToTwitchEventSub (st : EventSubState) : EventSubState :=
  match st.client with
  | some rs =>
      if rs == .opened || rs == .connecting then st
      else { st with client := some .connecting }
  | none => { st with client := some .connecting }

/-- The `session_reconnect` branch of `onmessage`: if a client exists,
call `close(1000, 'Reconnecting to new URL per Twitch')`, which puts the
socket in CLOSING and starts a closing handshake with code 1000. No new
connection is initiated here. Returns the new state and the close code
issued, if any. -/
def handleSessionReconnect (st : EventSubState) : EventSubState × Option Nat :=
  match st.client with
  | some _ => ({ st with client := some .closing }, some 1000)
  | none => (st, none)

/-- The `onclose` handler: null out the session id and the client; if the
close code is not 1000, schedule a reconnect (setTimeout of
`connectToTwitchEventSub` after 5000 ms). -/
def handleClose (code : Nat) (st : EventSubState) : EventSubState :=
  { client := none
    sessionId := none
    reconnectScheduled := st.reconnectScheduled || decide (code ≠ 1000) }

/-- Processing a `session_reconnect` message to completion: the handler
issues `close(1000, ...)`; a locally initiated normal closing handshake
completes with the same code echoed back (RFC 6455), so `onclose` then
observes code 1000. -/
def sessionReconnectThenClose (st : EventSubState) : EventSubState :=
  let (st1, code) := handleSessionReconnect st
  match code with
  | some c => handleClose c st1
  | none => st1

/-! ## Registration projector (src/services/TwitchEventSub.ts) -/

structure RaceParticipant where
  userId : String
  userName : String
  userLogin : String
  registeredAt : String
  color : String
  deriving Repr, DecidableEq

/-- The fields of a `channel.chat.message` event payload read by the
registration handler; `color` is the chatter's chat color, possibly
absent or empty. -/
structure TwitchChatMessageEvent where
  chatter_user_id : String
  chatter_user_name : String
  chatter_user_login : String
  color : Option String
  deriving Repr, DecidableEq

/-- The shared race registration state: `raceState.isOpen` and
`participants.current`. -/
structure RaceState where
  isOpen : Bool
  participants : List RaceParticipant
  deriving Repr, DecidableEq

/-- The `participant` record built by `handleRegistrationCommand`:
identity from the chat event, `registeredAt` from the clock, color from
the chat event when truthy and otherwise `generateRandomColor` of the
display name (`chatEvent.color || generateRandomColor(...)`). -/
def newParticipant (nowIso : String) (chatEvent : TwitchChatMessageEvent) :
    RaceParticipant :=
  { userId := chatEvent.chatter_user_id
    userName := chatEvent.chatter_user_name
    userLogin := chatEvent.chatter_user_login
    registeredAt := nowIso
    color :=
      match chatEvent.color with
      | some c =>
          if c == "" then generateRandomColor (codeUnitsOf chatEvent.chatter_user_name)
          else c
      | none => generateRandomColor (codeUnitsOf chatEvent.chatter_user_name) }

/-- `handleRegistrationCommand(chatEvent)`: if registration is closed,
return (logged only); if the chatter's userId is already registered,
return (logged only); otherwise append `newParticipant` and emit one
`new_participant` observer event carrying the user name. `nowIso`
stands for `new Date().toISOString()`. -/
def handleRegistrationCommand (nowIso : String) (chatEvent : TwitchChatMessageEvent)
    (st : RaceState) : RaceState × List String :=
  if !st.isOpen then (st, [])
  else if st.participants.any (fun p => p.userId == chatEvent.chatter_user_id) then
    (st, [])
  else
    ({ st with participants := st.participants ++ [newParticipant nowIso chatEvent] },
      [chatEvent.chatter_user_name])

/-- Number of registered participants carrying a given userId. -/
def countById (uid : String) (ps : List RaceParticipant) : Nat :=
  (ps.filter (fun p => p.userId == uid)).length

/-! ## Race registration routes (src/server/src/routes/apiRoutes.ts) -/

/-- `POST /registration/open`: set `raceState.isOpen := true`, clear
`participants.current`, and emit `registration_status` with
`(true, "Registration is now OPEN!")`. -/
def openRegistration (_st : RaceState) : RaceState × (Bool × String) :=
  ({ isOpen := true, participants := [] }, (true, "Registration is now OPEN!"))

structure Bet where
  userId : String
  userName : String
  userLogin : String
  rewardId : String
  userInput : String
  timestamp : String
  deriving Repr, DecidableEq

/-- The fields of a channel-points redemption event payload read by the
betting handler. -/
structure RedemptionEvent where
  user_id : String
  user_name : String
  user_login : String
  user_input : String
  reward_id : String
  deriving Repr, DecidableEq

/-- The shared betting state: `bettingOpenState.isOpen` and
`currentBets.current`. -/
structure BettingState where
  isOpen : Bool
  bets : List Bet
  deriving Repr, DecidableEq

/-- The `new_bet_placed` observer event payload. -/
structure NewBetPlacedEvent where
  userName : String
  betInput : String
  deriving Repr, DecidableEq

/-- The redemption branch of the `notification` case:
`if (CHANNEL_POINT_REWARD_ID_FOR_BETS && reward.id ===
CHANNEL_POINT_REWARD_ID_FOR_BETS)` — the configured reward id must be
truthy and equal to the event's reward id — then if betting is open,
append a `Bet` (no duplicate check) and emit one `new_bet_placed`
event; otherwise no change. `rewardIdForBets` models the
`TWITCH_CHANNEL_POINT_REWARD_ID` environment value, `messageTimestamp`
the frame's `metadata.message_timestamp`. -/
def handleRedemptionNotification (rewardIdForBets : Option String)
    (messageTimestamp : String) (ev : RedemptionEvent) (st : BettingState) :
    BettingState × List NewBetPlacedEvent :=
  match rewardIdForBets with
  | some cfg =>
      if cfg == "" then (st, [])
      else if ev.reward_id == cfg then
        if st.isOpen then
          let bet : Bet :=
            { userId := ev.user_id
              userName := ev.user_name
              userLogin := ev.user_login
              rewardId := ev.reward_id
              userInput := ev.user_input
              timestamp := messageTimestamp }
          ({ st with bets := st.bets ++ [bet] },
            [{ userName := ev.user_name, betInput := ev.user_input }])
        else (st, [])
      else (st, [])
  | none => (st, [])

/-! ## Helper lemmas -/

/-- Whatever the refresh-token state, an upstream failure response makes
`refreshAccessToken` clear the record and report failure. -/
lemma refreshAccessToken_failure_eq (now : Nat) (s : TokenState) :
    refreshAccessToken .failure now s = (false, clearTokens) := by
  unfold refreshAccessToken
  cases h : truthy s.refreshToken <;> simp

/-- Without a truthy refresh token, `refreshAccessToken` clears the
record and reports failure, independently of the upstream response. -/
lemma refreshAccessToken_noToken_eq (resp : RefreshResponse) (now : Nat)
    (s : TokenState) (h : truthy s.refreshToken = false) :
    refreshAccessToken resp now s = (false, clearTokens) := by
  unfold refreshAccessToken
  simp [h]

/-- With a truthy refresh token and an upstream success,
`refreshAccessToken` installs the new credentials. -/
lemma refreshAccessToken_success_eq (a : String) (rt : Option String)
    (ei : Nat) (now : Nat) (s : TokenState) (h : truthy s.refreshToken = true) :
    refreshAccessToken (.success a rt ei) now s =
      (true,
        { accessToken := some a
          refreshToken :=
            match rt with
            | some r => if r == "" then s.refreshToken else some r
            | none => s.refreshToken
          expiresAt := some (now + ei) }) := by
  unfold refreshAccessToken
  simp [h]

/-- A non-expired token has a stored expiry more than 300 seconds past
the call time. -/
lemma not_expired_margin (now : Nat) (s : TokenState)
    (h : isAccessTokenExpired now s = false) :
    ∃ e, s.expiresAt = some e ∧ now + 300 < e := by
  unfold isAccessTokenExpired at h
  cases hE : s.expiresAt with
  | none => rw [hE] at h; simp at h
  | some e =>
      rw [hE] at h
      simp at h
      exact ⟨e, rfl, by omega⟩

/-! ## Claim theorems -/

/-- C1 (counterexample): with an expired access token, a present refresh
token, and an upstream refresh success reporting `expires_in = 0`,
`getValidAccessToken` at time 1000 returns the refreshed token whose
stored expiry (1000) is within 300 seconds of the call time — refuting
"never returns a token whose expiresAt is within 300 seconds of the call
time". -/
theorem getValidAccessToken_margin_counterexample :
    (getValidAccessToken (.valid none) (.success "new" none 0) 1000
        ⟨some "old", some "r", some 100⟩).1 = some "new" ∧
      (getValidAccessToken (.valid none) (.success "new" none 0) 1000
        ⟨some "old", some "r", some 100⟩).2.expiresAt = some 1000 ∧
      ¬(1000 + 300 < 1000) :=
  ⟨by decide, by decide, by omega⟩

/-- C1 (amended): assuming every upstream response that reports an
`expires_in` reports one greater than 300 seconds, `getValidAccessToken`
never returns a token whose stored expiry is within 300 seconds of the
call time; and whenever the stored access token is present but expired,
a refresh credential is present, and the upstream refresh succeeds, it
returns the newly refreshed token rather than absent. -/
theorem getValidAccessToken_margin_and_refresh (vresp : ValidateResponse)
    (rresp : RefreshResponse) (now : Nat) (s : TokenState)
    (hr : ∀ a rt ei, rresp = .success a rt ei → 300 < ei)
    (hv : ∀ ei, vresp = .valid (some ei) → 300 < ei) :
    (∀ tok, (getValidAccessToken vresp rresp now s).1 = some tok →
        ∃ e, (getValidAccessToken vresp rresp now s).2.expiresAt = some e ∧
          now + 300 < e) ∧
      (truthy s.accessToken = true → isAccessTokenExpired now s = true →
        truthy s.refreshToken = true →
        ∀ a rt ei, rresp = .success a rt ei →
          (getValidAccessToken vresp rresp now s).1 = some a) := by
  constructor
  · intro tok htok
    cases hA : truthy s.accessToken
    · simp [getValidAccessToken, hA] at htok
    · cases hE : isAccessTokenExpired now s
      · -- not expired: validation path
        cases vresp with
        | valid ei? =>
            cases ei? with
            | none =>
                obtain ⟨e, he, hgt⟩ := not_expired_margin now s hE
                simp [getValidAccessToken, hA, hE, validateToken]
                exact ⟨e, he, hgt⟩
            | some ei =>
                have h300 := hv ei rfl
                have hne : (ei == 0) = false := by simp; omega
                simp [getValidAccessToken, hA, hE, validateToken, hne]
                omega
        | invalid =>
            cases rresp with
            | failure =>
                simp [getValidAccessToken, hA, hE, validateToken,
                  refreshAccessToken_failure_eq] at htok
            | success a rt ei =>
                cases hRT : truthy s.refreshToken
                · simp [getValidAccessToken, hA, hE, validateToken,
                    refreshAccessToken_noToken_eq _ _ _ hRT] at htok
                · have h300 := hr a rt ei rfl
                  simp [getValidAccessToken, hA, hE, validateToken,
                    refreshAccessToken_success_eq _ _ _ _ _ hRT]
                  omega
      · -- expired: refresh path
        cases rresp with
        | failure =>
            simp [getValidAccessToken, hA, hE,
              refreshAccessToken_failure_eq] at htok
        | success a rt ei =>
            cases hRT : truthy s.refreshToken
            · simp [getValidAccessToken, hA, hE,
                refreshAccessToken_noToken_eq _ _ _ hRT] at htok
            · have h300 := hr a rt ei rfl
              simp [getValidAccessToken, hA, hE,
                refreshAccessToken_success_eq _ _ _ _ _ hRT]
              omega
  · intro hA hE hRT a rt ei hresp
    subst hresp
    simp [getValidAccessToken, hA, hE,
      refreshAccessToken_success_eq _ _ _ _ _ hRT]

/-- C1 (witness): a concrete run of the amended theorem — a valid,
non-expired token introspected with `expires_in = 400` is returned with
its expiry more than 300 seconds out. -/
theorem getValidAccessToken_margin_and_refresh_witness :
    ∃ e, (getValidAccessToken (.valid (some 400)) (.success "new" none 400) 0
        ⟨some "tok", some "r", some 10000⟩).2.expiresAt = some e ∧
      0 + 300 < e :=
  (getValidAccessToken_margin_and_refresh (.valid (some 400))
      (.success "new" none 400) 0 ⟨some "tok", some "r", some 10000⟩
      (by intro a rt ei h; cases h; omega)
      (by intro ei h; cases h; omega)).1 "tok" (by decide)

/-- C2 (divergence evidence): from an established session, processing a
`session_reconnect` message closes the socket with the normal closure
code 1000, and the resulting `onclose` (which observes that same code)
neither opens a new connection nor schedules a reconnect: the final
state has no client and no pending reconnect timer, contrary to the
inline comment "the onclose handler's generic reconnect will fire". -/
theorem sessionReconnect_no_new_connection :
    sessionReconnectThenClose ⟨some .opened, some "sess", false⟩ =
      ⟨none, none, false⟩ := by
  decide

/-- C3: calling `connectToTwitchEventSub` while the existing socket is
CONNECTING or OPEN leaves the connection state unchanged — the connect
entry point is an idempotent no-op in those states, so a second live
socket is never created. -/
theorem connectToTwitchEventSub_noop_when_live (st : EventSubState)
    (h : st.client = some .opened ∨ st.client = some .connecting) :
    connectToTwitchEventSub st = st := by
  rcases h with h | h <;> simp [connectToTwitchEventSub, h]

/-- C3 (witness): a concrete no-op connect on an OPEN socket. -/
theorem connectToTwitchEventSub_noop_when_live_witness :
    connectToTwitchEventSub ⟨some .opened, some "sess", false⟩ =
      ⟨some .opened, some "sess", false⟩ :=
  connectToTwitchEventSub_noop_when_live ⟨some .opened, some "sess", false⟩
    (Or.inl rfl)

/-- C5: for every prior state, opening registration sets the flag to
open and resets the participant set to empty. -/
theorem openRegistration_resets (st : RaceState) :
    (openRegistration st).1.isOpen = true ∧
      (openRegistration st).1.participants = [] :=
  ⟨rfl, rfl⟩

/-- C7: for a redemption notification whose reward id equals the (truthy)
configured betting reward id: if betting is open, exactly one new `Bet`
is appended — with no duplicate-user check — and exactly one
`new_bet_placed` event is emitted; if betting is closed, the bet list is
unchanged and no event is emitted. -/
theorem handleRedemptionNotification_spec (rewardIdForBets : Option String)
    (ts : String) (ev : RedemptionEvent) (st : BettingState) (r : String)
    (hcfg : rewardIdForBets = some r) (hr : r ≠ "") (hev : ev.reward_id = r) :
    (st.isOpen = true →
        (handleRedemptionNotification rewardIdForBets ts ev st).1.bets =
            st.bets ++
              [⟨ev.user_id, ev.user_name, ev.user_login, ev.reward_id,
                ev.user_input, ts⟩] ∧
          (handleRedemptionNotification rewardIdForBets ts ev st).2 =
            [⟨ev.user_name, ev.user_input⟩]) ∧
      (st.isOpen = false →
        (handleRedemptionNotification rewardIdForBets ts ev st).1 = st ∧
          (handleRedemptionNotification rewardIdForBets ts ev st).2 = []) := by
  subst hcfg
  constructor
  · intro hOpen
    simp [handleRedemptionNotification, hr, hev, hOpen]
  · intro hClosed
    simp [handleRedemptionNotification, hr, hev, hClosed]

/-- C7 (witness): reward "R1" redeemed while betting is open appends the
bet; the same redemption while closed leaves the list unchanged. -/
theorem handleRedemptionNotification_spec_witness :
    ((handleRedemptionNotification (some "R1") "t0"
          ⟨"7", "Ann", "ann", "rat 3", "R1"⟩ ⟨true, []⟩).1.bets =
        [⟨"7", "Ann", "ann", "R1", "rat 3", "t0"⟩] ∧
      (handleRedemptionNotification (some "R1") "t0"
          ⟨"7", "Ann", "ann", "rat 3", "R1"⟩ ⟨true, []⟩).2 =
        [⟨"Ann", "rat 3"⟩]) ∧
      ((handleRedemptionNotification (some "R1") "t0"
            ⟨"7", "Ann", "ann", "rat 3", "R1"⟩ ⟨false, []⟩).1 =
          ⟨false, []⟩ ∧
        (handleRedemptionNotification (some "R1") "t0"
            ⟨"7", "Ann", "ann", "rat 3", "R1"⟩ ⟨false, []⟩).2 = []) :=
  ⟨(handleRedemptionNotification_spec (some "R1") "t0"
      ⟨"7", "Ann", "ann", "rat 3", "R1"⟩ ⟨true, []⟩ "R1" rfl (by decide) rfl).1
      rfl,
    (handleRedemptionNotification_spec (some "R1") "t0"
      ⟨"7", "Ann", "ann", "rat 3", "R1"⟩ ⟨false, []⟩ "R1" rfl (by decide) rfl).2
      rfl⟩

/-- C8: `refreshAccessToken` called with no (truthy) refresh credential
fails and leaves the record fully cleared whatever the upstream would
answer (the response oracle is never consulted); and on an upstream
rejection it also fully clears the record and fails. -/
theorem refreshAccessToken_failure_clears (now : Nat) (s : TokenState) :
    (truthy s.refreshToken = false →
        ∀ resp, refreshAccessToken resp now s =
          (false, ⟨none, none, none⟩)) ∧
      (refreshAccessToken .failure now s = (false, ⟨none, none, none⟩)) :=
  ⟨fun h resp => refreshAccessToken_noToken_eq resp now s h,
    refreshAccessToken_failure_eq now s⟩

/-- C8 (witness): a concrete record with no refresh token is cleared
regardless of a would-be successful upstream answer; a concrete record
with a refresh token is cleared on upstream rejection. -/
theorem refreshAccessToken_failure_clears_witness :
    (refreshAccessToken (.success "x" (some "y") 9999) 50
        ⟨some "a", none, some 5⟩ = (false, ⟨none, none, none⟩)) ∧
      (refreshAccessToken .failure 50 ⟨some "a", some "r", some 5⟩ =
        (false, ⟨none, none, none⟩)) :=
  ⟨(refreshAccessToken_failure_clears 50 ⟨some "a", none, some 5⟩).1 rfl
      (.success "x" (some "y") 9999),
    (refreshAccessToken_failure_clears 50 ⟨some "a", some "r", some 5⟩).2⟩

/-- An absent userId means the duplicate check comes up false. -/
lemma any_eq_false_of_countById_eq_zero (uid : String)
    (ps : List RaceParticipant) (h : countById uid ps = 0) :
    ps.any (fun p => p.userId == uid) = false := by
  simp only [countById, List.length_eq_zero, List.filter_eq_nil_iff] at h
  simp only [List.any_eq_false]
  intro p hp
  simpa using h p hp

/-- C4 (counterexample): with registration open and the userId already
registered, processing the registration command twice adds zero
participants — not exactly one — refuting the claim for "every initial
participant list". -/
theorem handleRegistrationCommand_twice_counterexample :
    (handleRegistrationCommand "t1" ⟨"42", "Rex", "rex", none⟩
          ((handleRegistrationCommand "t1" ⟨"42", "Rex", "rex", none⟩
            ⟨true, [⟨"42", "Rex", "rex", "t0", "#FF0000"⟩]⟩).1)).1.participants =
        [⟨"42", "Rex", "rex", "t0", "#FF0000"⟩] ∧
      ¬((handleRegistrationCommand "t1" ⟨"42", "Rex", "rex", none⟩
            ((handleRegistrationCommand "t1" ⟨"42", "Rex", "rex", none⟩
              ⟨true, [⟨"42", "Rex", "rex", "t0", "#FF0000"⟩]⟩).1)).1.participants.length =
          ([⟨"42", "Rex", "rex", "t0", "#FF0000"⟩] :
            List RaceParticipant).length + 1) := by
  decide

/-- A registered userId means the duplicate check comes up true. -/
lemma any_eq_true_of_countById_pos (uid : String)
    (ps : List RaceParticipant) (h : 0 < countById uid ps) :
    ps.any (fun p => p.userId == uid) = true := by
  simp only [countById] at h
  obtain ⟨p, hp⟩ := List.exists_mem_of_ne_nil _ (List.length_pos.mp h)
  rw [List.mem_filter] at hp
  simp only [List.any_eq_true]
  exact ⟨p, hp.1, hp.2⟩

/-- C4 (amended): processing a registration command twice for the same
userId while registration is open adds exactly one Participant with
that userId when it is not already registered and zero when it is;
processing twice while registration is closed adds zero Participants;
all cases return without error. -/
theorem handleRegistrationCommand_twice (nowIso : String)
    (ev : TwitchChatMessageEvent) (st : RaceState) :
    (st.isOpen = true → countById ev.chatter_user_id st.participants = 0 →
        countById ev.chatter_user_id
            (handleRegistrationCommand nowIso ev
              (handleRegistrationCommand nowIso ev st).1).1.participants = 1 ∧
          (handleRegistrationCommand nowIso ev
              (handleRegistrationCommand nowIso ev st).1).1.participants.length =
            st.participants.length + 1) ∧
      (st.isOpen = true → 0 < countById ev.chatter_user_id st.participants →
        (handleRegistrationCommand nowIso ev
            (handleRegistrationCommand nowIso ev st).1).1.participants =
          st.participants) ∧
      (st.isOpen = false →
        (handleRegistrationCommand nowIso ev
            (handleRegistrationCommand nowIso ev st).1).1.participants =
          st.participants) := by
  refine ⟨?_, ?_, ?_⟩
  · intro hOpen hZero
    have hAny := any_eq_false_of_countById_eq_zero ev.chatter_user_id
      st.participants hZero
    have h1 : (handleRegistrationCommand nowIso ev st).1 =
        { st with participants :=
            st.participants ++ [newParticipant nowIso ev] } := by
      simp [handleRegistrationCommand, hOpen, hAny]
    have hAny2 :
        (st.participants ++ [newParticipant nowIso ev]).any
          (fun p => p.userId == ev.chatter_user_id) = true := by
      simp [List.any_append, newParticipant]
    have h2 : (handleRegistrationCommand nowIso ev
        { st with participants :=
            st.participants ++ [newParticipant nowIso ev] }).1 =
        { st with participants :=
            st.participants ++ [newParticipant nowIso ev] } := by
      simp [handleRegistrationCommand, hOpen, hAny2]
    rw [h1, h2]
    constructor
    · simp [countById, List.filter_append, newParticipant]
      simpa [countById] using hZero
    · simp
  · intro hOpen hPos
    have hAny := any_eq_true_of_countById_pos ev.chatter_user_id
      st.participants hPos
    simp [handleRegistrationCommand, hOpen, hAny]
  · intro hClosed
    simp [handleRegistrationCommand, hClosed]

/-- C4 (witness): a fresh user registering twice on an empty open list
ends with exactly one entry; an already-registered user registering
twice leaves the list unchanged; the same command twice while closed
leaves the list empty. -/
theorem handleRegistrationCommand_twice_witness :
    ((countById "42"
          (handleRegistrationCommand "t1" ⟨"42", "Rex", "rex", none⟩
            ((handleRegistrationCommand "t1" ⟨"42", "Rex", "rex", none⟩
              ⟨true, []⟩).1)).1.participants = 1 ∧
        (handleRegistrationCommand "t1" ⟨"42", "Rex", "rex", none⟩
            ((handleRegistrationCommand "t1" ⟨"42", "Rex", "rex", none⟩
              ⟨true, []⟩).1)).1.participants.length =
          ([] : List RaceParticipant).length + 1) ∧
      (handleRegistrationCommand "t1" ⟨"42", "Rex", "rex", none⟩
          ((handleRegistrationCommand "t1" ⟨"42", "Rex", "rex", none⟩
            ⟨true, [⟨"42", "Rex", "rex", "t0", "#FF0000"⟩]⟩).1)).1.participants =
        [⟨"42", "Rex", "rex", "t0", "#FF0000"⟩]) ∧
      (handleRegistrationCommand "t1" ⟨"42", "Rex", "rex", none⟩
          ((handleRegistrationCommand "t1" ⟨"42", "Rex", "rex", none⟩
            ⟨false, []⟩).1)).1.participants = [] :=
  ⟨⟨(handleRegistrationCommand_twice "t1" ⟨"42", "Rex", "rex", none⟩
        ⟨true, []⟩).1 rfl (by decide),
      (handleRegistrationCommand_twice "t1" ⟨"42", "Rex", "rex", none⟩
        ⟨true, [⟨"42", "Rex", "rex", "t0", "#FF0000"⟩]⟩).2.1 rfl (by decide)⟩,
    (handleRegistrationCommand_twice "t1" ⟨"42", "Rex", "rex", none⟩
      ⟨false, []⟩).2.2 rfl⟩

/-- C9: `handleRegistrationCommand` never changes the open/closed flag,
and the resulting participant list is either the original list unchanged
or the original list with exactly one new Participant (carrying the
event's userId) appended at the end. -/
theorem handleRegistrationCommand_frame (nowIso : String)
    (ev : TwitchChatMessageEvent) (st : RaceState) :
    (handleRegistrationCommand nowIso ev st).1.isOpen = st.isOpen ∧
      ((handleRegistrationCommand nowIso ev st).1.participants =
          st.participants ∨
        ∃ p : RaceParticipant, p.userId = ev.chatter_user_id ∧
          (handleRegistrationCommand nowIso ev st).1.participants =
            st.participants ++ [p]) := by
  unfold handleRegistrationCommand
  cases hO : st.isOpen
  · simp [hO]
  · cases hAny : st.participants.any (fun p => p.userId == ev.chatter_user_id)
    · exact ⟨by simp [hO, hAny],
        Or.inr ⟨newParticipant nowIso ev, rfl, by simp [hO, hAny]⟩⟩
    · simp [hO, hAny]

/-- Every single hex digit renders as an uppercase hexadecimal
character. -/
lemma hexChar_upperHex : ∀ n, n < 16 → isUpperHexDigit (hexChar n) = true := by
  decide

lemma hexDigits_ne_nil (n : Nat) : hexDigits n ≠ [] := by
  rw [hexDigits]
  split <;> simp

lemma hexDigits_length_le : ∀ k n, n < 16 ^ (k + 1) → (hexDigits n).length ≤ k + 1 := by
  intro k
  induction k with
  | zero =>
      intro n hn
      have h16 : n < 16 := by simpa using hn
      rw [hexDigits, dif_pos h16]
      simp
  | succ k ih =>
      intro n hn
      by_cases h16 : n < 16
      · rw [hexDigits, dif_pos h16]
        simp
      · rw [hexDigits, dif_neg h16]
        rw [List.length_append]
        have hdiv : n / 16 < 16 ^ (k + 1) := by
          apply Nat.div_lt_of_lt_mul
          rw [← pow_succ']
          exact hn
        have := ih (n / 16) hdiv
        simp only [List.length_singleton]
        omega

lemma hexDigits_upperHex (n : Nat) :
    ∀ c ∈ hexDigits n, isUpperHexDigit c = true := by
  induction n using Nat.strong_induction_on with
  | _ n ih =>
    by_cases h16 : n < 16
    · rw [hexDigits, dif_pos h16]
      intro c hc
      simp at hc
      subst hc
      exact hexChar_upperHex n h16
    · rw [hexDigits, dif_neg h16]
      intro c hc
      rcases List.mem_append.mp hc with hc | hc
      · exact ih (n / 16) (Nat.div_lt_self (by omega) (by omega)) c hc
      · simp at hc
        subst hc
        exact hexChar_upperHex (n % 16) (Nat.mod_lt _ (by omega))

/-- Masking to 24 bits lands strictly below `16^6`. -/
lemma maskTo24Bits_lt (h : Int) : maskTo24Bits h < 16 ^ 6 := by
  have hle : (h % 4294967296).toNat &&& 16777215 ≤ 16777215 := Nat.and_le_right
  have h6 : (16 : Nat) ^ 6 = 16777216 := by norm_num
  unfold maskTo24Bits
  omega

/-- C10: `generateRandomColor` is a pure (hence deterministic) function
of the username's code units, and its output is always exactly 7
characters: `#` followed by 6 uppercase hexadecimal digits. -/
theorem generateRandomColor_format (codeUnits : List Nat) :
    (generateRandomColor codeUnits).length = 7 ∧
      (generateRandomColor codeUnits).toList.head? = some '#' ∧
      (∀ c ∈ (generateRandomColor codeUnits).toList.tail,
        isUpperHexDigit c = true) ∧
      generateRandomColor codeUnits = generateRandomColor codeUnits := by
  have hstr : ∀ l : List Char, (String.mk l).length = l.length := fun l => rfl
  have htl : ∀ l : List Char, (String.mk l).toList = l := fun l => rfl
  have hlt := maskTo24Bits_lt (hashOf codeUnits)
  have hlen6 : (hexDigits (maskTo24Bits (hashOf codeUnits))).length ≤ 6 :=
    hexDigits_length_le 5 _ hlt
  have hlen1 : 1 ≤ (hexDigits (maskTo24Bits (hashOf codeUnits))).length :=
    List.length_pos.mpr (hexDigits_ne_nil _)
  have h5 : ("00000".toList).length = 5 := rfl
  refine ⟨?_, ?_, ?_, rfl⟩
  · simp only [generateRandomColor, hstr, List.length_cons, List.length_append,
      List.length_take, h5]
    omega
  · simp only [generateRandomColor, htl, List.head?_cons]
  · simp only [generateRandomColor, htl, List.tail_cons]
    intro c hc
    rcases List.mem_append.mp hc with hc | hc
    · have hc0 : c ∈ "00000".toList := List.take_subset _ _ hc
      have : c = '0' := by
        have : "00000".toList = ['0', '0', '0', '0', '0'] := rfl
        rw [this] at hc0
        simpa using hc0
      subst this
      decide
    · exact hexDigits_upperHex _ c hc

end Ratrace
